import Mathlib

/-!
Verification of the uptime-kuma status-page subscriber notification subsystem.

The development is a shallow embedding of
`server/notification-subscriber.js` and
`server/routers/subscriber-router.js`:
JavaScript objects become structures, database beans become list entries,
fallible operations return `Except String`, and JavaScript truthiness is
made explicit.  Store lookups and the outcome of the external mail
collaborator are passed in as explicit environment values.
-/

namespace UptimeKuma

/-- JavaScript values, to the extent the embedded code inspects them
(truthiness and strict comparison with the literal `false`). -/
inductive JSVal where
  | undef
  | null
  | bool (b : Bool)
  | str (s : String)
  | num (n : Int)
deriving DecidableEq, Repr

/-- JavaScript truthiness for `JSVal`. -/
def truthy : JSVal → Bool
  | JSVal.undef => false
  | JSVal.null => false
  | JSVal.bool b => b
  | JSVal.str s => s ≠ ""
  | JSVal.num n => n ≠ 0

/-- The JavaScript expression `a || b`: yields `a` when `a` is truthy,
otherwise `b`. -/
def jsOr (a b : JSVal) : JSVal :=
  if truthy a then a else b

/-- The JavaScript expression `v !== false` (strict comparison with the
boolean literal `false`). -/
def jsNeqFalse (v : JSVal) : Bool :=
  v ≠ JSVal.bool false

/-- Truthiness of an optional string field of a parsed JSON object:
an absent field is `undefined` (falsy) and the empty string is falsy. -/
def fieldTruthy : Option String → Bool
  | none => false
  | some s => s ≠ ""

/-- Truthiness of the `setting("primaryBaseURL")` result: the setting is
either absent or a string, and the empty string is falsy. -/
def optTruthy : Option String → Bool
  | none => false
  | some s => s ≠ ""

/-! ## Transport selection and `sendEmail`
Embeds `getDefaultNotification` (notification-subscriber.js lines 13-33)
and `sendEmail` (lines 42-70). -/

/-- Outcome of `JSON.parse` on a stored notification `config` string:
either a parsed object (of which the code reads `type` and `name`) or a
thrown parse error. -/
inductive ConfigParse where
  | ok (type : String) (name : String)
  | err (msg : String)
deriving DecidableEq, Repr

/-- A row of the `notification` table as the embedded code uses it:
only the parse outcome of its `config` column matters. -/
structure NotificationBean where
  config : ConfigParse
deriving DecidableEq, Repr

/-- The store operations `getDefaultNotification` performs, with their
outcomes: `R.findOne("notification", "is_default = ?", [true])` and
`R.findAll("notification")`.  `Except.error` models the operation
throwing. -/
structure NotifStore where
  findOneDefault : Except String (Option NotificationBean)
  findAllNotifications : Except String (List NotificationBean)
deriving Repr

/-- The fallback scan of `getDefaultNotification`: iterate over all
notification rows, `JSON.parse` each config (a parse error is thrown and
escapes the loop), and stop at the first row whose `config.type` is
`"smtp"`. -/
def firstSmtp : List NotificationBean → Except String (Option NotificationBean)
  | [] => Except.ok none
  | n :: rest =>
    match n.config with
    | ConfigParse.err e => Except.error e
    | ConfigParse.ok ty _ =>
      if ty = "smtp" then Except.ok (some n) else firstSmtp rest

/-- The body of `getDefaultNotification` before its `catch`: find the row
marked default; if none, fall back to the first SMTP-typed row. -/
def getDefaultNotificationBody (st : NotifStore) : Except String (Option NotificationBean) :=
  match st.findOneDefault with
  | Except.error e => Except.error e
  | Except.ok (some n) => Except.ok (some n)
  | Except.ok none =>
    match st.findAllNotifications with
    | Except.error e => Except.error e
    | Except.ok all => firstSmtp all

/-- `getDefaultNotification`: the whole body is wrapped in
`try/catch`, and the `catch` logs and returns `null`. -/
def getDefaultNotification (st : NotifStore) : Option NotificationBean :=
  match getDefaultNotificationBody st with
  | Except.error _ => none
  | Except.ok r => r

/-- The environment `sendEmail` runs against: the notification store and
the outcome of `Notification.send` on the composed message (`Except.error`
models the transport raising). -/
structure MailEnv where
  store : NotifStore
  sendResult : Except String Unit
deriving Repr

/-- `sendEmail(to, subject, html)`: resolves the default notification; if
none, returns `false`.  Otherwise parses its config and calls
`Notification.send`; success returns `true`, and a thrown error (from the
parse or from the transport) is re-thrown by the `catch`. -/
def sendEmail (env : MailEnv) : Except String Bool :=
  match getDefaultNotification env.store with
  | none => Except.ok false
  | some bean =>
    match bean.config with
    | ConfigParse.err e => Except.error e
    | ConfigParse.ok _ _ =>
      match env.sendResult with
      | Except.ok _ => Except.ok true
      | Except.error e => Except.error e

/-! ## The notification queue and `processQueue`
Embeds `processQueue` (notification-subscriber.js lines 496-552). -/

/-- Status column of a `notification_queue` row. -/
inductive QStatus where
  | pending
  | sent
  | failed
deriving DecidableEq, Repr

/-- The embedded `message` object inside a queued payload; each field is
a string or absent.  The source field `to` is spelled `to_` because `to`
is reserved in Lean. -/
structure Message where
  to_ : Option String
  subject : Option String
  html : Option String
deriving DecidableEq, Repr

/-- Outcome of `JSON.parse(item.data)` on a queued row's payload:
`malformed` when the parse throws (with the thrown message), otherwise
the parsed object, whose `message` field may be absent. -/
inductive Payload where
  | malformed (err : String)
  | parsed (message : Option Message)
deriving DecidableEq, Repr

/-- A row of the `notification_queue` table.  Timestamps are abstract
ordinals. -/
structure QueueItem where
  id : Nat
  subscriberId : Nat
  notificationType : String
  subject : String
  data : Payload
  status : QStatus
  attempts : Nat
  createdAt : Nat
  sentAt : Option Nat
  lastError : Option String
deriving DecidableEq, Repr

/-- The check `data.message && data.message.to && data.message.subject &&
data.message.html` guarding delivery in `processQueue`. -/
def validMessage : Option Message → Bool
  | none => false
  | some m => fieldTruthy m.to_ && fieldTruthy m.subject && fieldTruthy m.html

/-- The per-item `catch` block of `processQueue`: increment `attempts`,
record the thrown message in `last_error`, and mark `failed` once the
incremented count reaches 5 (`item.attempts >= 5`). -/
def applyDeliveryError (item : QueueItem) (err : String) : QueueItem :=
  { item with
    attempts := item.attempts + 1
    lastError := some err
    status := if item.attempts + 1 ≥ 5 then QStatus.failed else item.status }

/-- Processing of a single selected queue row in `processQueue`: parse the
payload (a parse error falls into the per-item `catch`); with a
well-formed message, call `sendEmail` — both a `true` and a `false`
return mark the row `sent` with `sent_at` set, while a thrown error falls
into the `catch`; without a well-formed message, mark the row `failed`
with `last_error = "Invalid message format"`. -/
def processItem (env : MailEnv) (now : Nat) (item : QueueItem) : QueueItem :=
  match item.data with
  | Payload.malformed err => applyDeliveryError item err
  | Payload.parsed message =>
    if validMessage message then
      match sendEmail env with
      | Except.ok true => { item with status := QStatus.sent, sentAt := some now }
      | Except.ok false => { item with status := QStatus.sent, sentAt := some now }
      | Except.error e => applyDeliveryError item e
    else
      { item with status := QStatus.failed, lastError := some "Invalid message format" }

/-- The batch selection of `processQueue`:
`R.find("notification_queue", "status = ? AND attempts < ? ORDER BY created_at ASC LIMIT 50", ["pending", 5])`. -/
def selectPending (queue : List QueueItem) : List QueueItem :=
  ((queue.filter fun i => decide (i.status = QStatus.pending) && decide (i.attempts < 5)).mergeSort
    fun a b => a.createdAt ≤ b.createdAt).take 50

/-- One drain cycle over the selected batch: every selected row is
processed by `processItem` (rows are processed independently; the
per-item `catch` keeps one row's error from aborting the rest). -/
def processQueueBatch (env : MailEnv) (now : Nat) (queue : List QueueItem) : List QueueItem :=
  (selectPending queue).map (processItem env now)

/-! ## Queue processor timer
Embeds `startQueueProcessor` (lines 558-566) and `stopQueueProcessor`
(lines 572-578) as a state machine over the set of live interval timers
and the class-level `this.queueInterval` handle. -/

/-- Process-level timer state: the ids of interval timers currently
registered with the runtime, the stored `this.queueInterval` handle, and
a counter supplying fresh timer ids. -/
structure ProcessorState where
  activeIntervals : List Nat
  queueInterval : Option Nat
  nextTimerId : Nat
deriving DecidableEq, Repr

/-- Timer state at process start: no interval registered, no handle. -/
def initProcessorState : ProcessorState :=
  { activeIntervals := [], queueInterval := none, nextTimerId := 0 }

/-- `startQueueProcessor`: runs one immediate drain (not part of the
timer state), then unconditionally registers a fresh `setInterval` timer
and overwrites `this.queueInterval` with its handle. -/
def startQueueProcessor (s : ProcessorState) : ProcessorState :=
  { activeIntervals := s.activeIntervals ++ [s.nextTimerId]
    queueInterval := some s.nextTimerId
    nextTimerId := s.nextTimerId + 1 }

/-- `stopQueueProcessor`: when `this.queueInterval` holds a handle,
`clearInterval` it and set the handle to `null`; otherwise do nothing. -/
def stopQueueProcessor (s : ProcessorState) : ProcessorState :=
  match s.queueInterval with
  | none => s
  | some h =>
    { s with
      activeIntervals := s.activeIntervals.filter fun i => i ≠ h
      queueInterval := none }

/-! ## Message composers
Embeds `sendSubscriptionConfirmation` (lines 106-155),
`sendIncidentNotification` (lines 162-238),
`sendIncidentUpdateNotification` (lines 246-313),
`sendIncidentResolvedNotification` (lines 320-384) and
`sendStatusChangeNotification` (lines 395-490).  Each composer is
embedded as a function from its environment (the outcomes of its store
reads) to `Except String` of the list of `queueNotification` calls it
performs, each call recorded as the subscription it was made for.  A
thrown error is `Except.error`; the composer itself sends no mail. -/

/-- A row of the `incident` table as the composers read it.  The guard
`!incident || !incident.id` treats id 0 as missing. -/
structure Incident where
  id : Nat
  statusPageId : Nat
  style : String
  title : String
deriving DecidableEq, Repr

/-- A row of the `status_page` table; the guard
`!statusPage || !statusPage.slug` treats the empty slug as missing. -/
structure StatusPageBean where
  id : Nat
  slug : String
deriving DecidableEq, Repr

/-- A row of the `subscription` table as read by the composers (boolean
columns come back as truthy or falsy values). -/
structure SubscriptionBean where
  id : Nat
  subscriberId : Nat
  statusPageId : Nat
  notifyIncidents : Bool
  notifyMaintenance : Bool
  notifyStatusChanges : Bool
  verified : Bool
deriving DecidableEq, Repr

/-- Environment of the three incident composers: the outcomes of
`R.load("incident", incidentId)`, `R.load("status_page", ...)`,
`setting("primaryBaseURL")` and `Subscription.getByStatusPage(...)`. -/
structure IncidentEnv where
  incident : Option Incident
  statusPage : Option StatusPageBean
  baseURL : Option String
  subscriptions : List SubscriptionBean
deriving Repr

/-- The subscriber loop shared by the three incident composers: skip a
subscription when `!subscription.notify_incidents` or
`!subscription.verified`, otherwise load its subscriber and call
`queueNotification`; each performed call is recorded as the subscription
it served. -/
def incidentLoop : List SubscriptionBean → List SubscriptionBean
  | [] => []
  | s :: rest =>
    if s.notifyIncidents = false then incidentLoop rest
    else if s.verified = false then incidentLoop rest
    else s :: incidentLoop rest

/-- The shared skeleton of the three incident composers: throw
`"Incident not found"` or `"Status page not found"` when a load fails,
return silently (queueing nothing) when the primary base URL setting is
falsy, and otherwise run the subscriber loop. -/
def incidentComposer (env : IncidentEnv) : Except String (List SubscriptionBean) :=
  match env.incident with
  | none => Except.error "Incident not found"
  | some incident =>
    if incident.id = 0 then Except.error "Incident not found"
    else
      match env.statusPage with
      | none => Except.error "Status page not found"
      | some sp =>
        if sp.slug = "" then Except.error "Status page not found"
        else if optTruthy env.baseURL = false then Except.ok []
        else Except.ok (incidentLoop env.subscriptions)

/-- `sendIncidentNotification(incidentId)`: the incident skeleton with
notification type `incident_created`. -/
def sendIncidentNotification (env : IncidentEnv) : Except String (List SubscriptionBean) :=
  incidentComposer env

/-- `sendIncidentUpdateNotification(incidentId, updateMessage)`: the same
skeleton with notification type `incident_update`. -/
def sendIncidentUpdateNotification (env : IncidentEnv) : Except String (List SubscriptionBean) :=
  incidentComposer env

/-- `sendIncidentResolvedNotification(incidentId)`: the same skeleton
with notification type `incident_resolved`. -/
def sendIncidentResolvedNotification (env : IncidentEnv) : Except String (List SubscriptionBean) :=
  incidentComposer env

/-- Environment of `sendStatusChangeNotification`: the outcomes of
`R.load("status_page", statusPageId)`, `setting("primaryBaseURL")`, and
the full contents of the `subscription` table visible to its SQL query. -/
structure StatusChangeEnv where
  statusPage : Option StatusPageBean
  baseURL : Option String
  allSubscriptions : List SubscriptionBean
deriving Repr

/-- The WHERE clause of the status-change SQL query:
`status_page_id = ? AND notify_status_changes = 1 AND verified = 1`. -/
def statusChangeEligible (statusPageId : Nat) (s : SubscriptionBean) : Bool :=
  decide (s.statusPageId = statusPageId) && s.notifyStatusChanges && s.verified

/-- `sendStatusChangeNotification(monitorId, monitorName, statusPageId,
previousStatus, currentStatus)`: throw when the status page is missing,
return silently when the primary base URL setting is falsy, and otherwise
queue one `status_change` notification for every row the SQL pre-filter
selects (an empty selection returns early with nothing queued, the same
result). -/
def sendStatusChangeNotification (env : StatusChangeEnv) (statusPageId : Nat) :
    Except String (List SubscriptionBean) :=
  match env.statusPage with
  | none => Except.error "Status page not found"
  | some sp =>
    if sp.slug = "" then Except.error "Status page not found"
    else if optTruthy env.baseURL = false then Except.ok []
    else Except.ok (env.allSubscriptions.filter (statusChangeEligible statusPageId))

/-- `sendSubscriptionConfirmation(subscriber, subscription, slug)`: when
the primary base URL setting is falsy it throws (and the surrounding
`catch` re-throws); otherwise it performs exactly one `queueNotification`
call of type `subscription_confirmation` for the given subscriber. -/
def sendSubscriptionConfirmation (baseURL : Option String) (subscriberId : Nat) :
    Except String (List Nat) :=
  if optTruthy baseURL = false then
    Except.error "Primary Base URL is not set. Please configure it in Settings > General."
  else
    Except.ok [subscriberId]

/-- The status-name table of `sendStatusChangeNotification`: codes 0-3
map to fixed labels, anything else to the fallback `"Unknown"`. -/
def statusName (code : Int) : String :=
  if code = 0 then "Down"
  else if code = 1 then "Up"
  else if code = 2 then "Pending"
  else if code = 3 then "Maintenance"
  else "Unknown"

/-! ## The subscribe route
Embeds `POST /api/status-page/:slug/subscribe`
(routers/subscriber-router.js lines 27-112).  The model-layer helpers it
calls live in `server/model/*.js`, which is not under `src/`; they are
modelled from the spec below and marked as such. -/

/-- A row of the `subscriber` table. -/
structure SubscriberBean where
  id : Nat
  email : String
  unsubscribeToken : String
deriving DecidableEq, Repr

/-- A row of the `subscription` table as the subscribe route writes it.
`notifyIncidents`/`notifyMaintenance` hold the boolean results of the
strict comparisons `!== false`; `notifyStatusChanges` holds the raw
JavaScript value of `notifyStatusChanges || false`. -/
structure SubscriptionRow where
  id : Nat
  subscriberId : Nat
  statusPageId : Nat
  componentId : JSVal
  notifyIncidents : Bool
  notifyMaintenance : Bool
  notifyStatusChanges : JSVal
  verified : Bool
  verificationToken : String
deriving DecidableEq, Repr

/-- The store state the subscribe route reads and writes: subscriber and
subscription rows, the `queueNotification` calls performed so far
(recorded as subscriber id and notification type), a fresh-id counter for
`R.store`, the slug-to-id table of status pages, and the
`primaryBaseURL` setting. -/
structure SubStore where
  subscribers : List SubscriberBean
  subscriptions : List SubscriptionRow
  queued : List (Nat × String)
  nextId : Nat
  slugTable : List (String × Nat)
  baseURL : Option String
deriving DecidableEq, Repr

/-- Modelled from the spec: `StatusPage.slugToID(slug)`
(server/model/status_page.js is not under src/) — resolves a status-page
slug to its id, absent when the slug is unknown. -/
def slugToID (st : SubStore) (slug : String) : Option Nat :=
  st.slugTable.lookup slug

/-- Modelled from the spec: `Subscriber.findByEmail(email)`
(server/model/subscriber.js is not under src/) — point lookup of a
Subscriber by email. -/
def findByEmail (st : SubStore) (email : String) : Option SubscriberBean :=
  st.subscribers.find? fun s => s.email = email

/-- Modelled from the spec: `Subscription.exists(subscriberId,
statusPageId, componentId)` (server/model/subscription.js is not under
src/) — whether a Subscription with exactly this triple already
exists. -/
def subscriptionExists (st : SubStore) (subscriberId statusPageId : Nat)
    (componentId : JSVal) : Bool :=
  st.subscriptions.any fun r =>
    decide (r.subscriberId = subscriberId) && decide (r.statusPageId = statusPageId)
      && decide (r.componentId = componentId)

/-- Modelled from the spec: `Subscriber.generateUnsubscribeToken()` — an
opaque fresh token, here derived from the fresh row id. -/
def generateUnsubscribeToken (n : Nat) : String :=
  "unsubscribe-token-" ++ toString n

/-- Modelled from the spec: `Subscription.generateVerificationToken()` —
an opaque fresh token, here derived from the fresh row id. -/
def generateVerificationToken (n : Nat) : String :=
  "verification-token-" ++ toString n

/-- The request body and slug parameter of the subscribe route.  The
email is modelled as a string; the optional body fields keep their raw
JavaScript values (`undefined` when omitted). -/
structure SubscribeRequest where
  slug : String
  email : String
  componentId : JSVal
  notifyIncidents : JSVal
  notifyMaintenance : JSVal
  notifyStatusChanges : JSVal
deriving DecidableEq, Repr

/-- The JSON response of the subscribe route, reduced to the fields the
route sets: HTTP status, `ok`, `alreadySubscribed`, `needsVerification`. -/
structure SubscribeResponse where
  statusCode : Nat
  ok : Bool
  alreadySubscribed : Bool
  needsVerification : Bool
deriving DecidableEq, Repr

/-- The email validation of the subscribe route:
`!email || !email.includes("@")` — empty string, or no `@` among the
characters. -/
def emailInvalid (req : SubscribeRequest) : Bool :=
  decide (req.email = "") || !(req.email.toList.contains '@')

/-- The find-or-create-subscriber block of the subscribe route: look the
subscriber up by email; when absent, dispense a fresh row with a fresh
unsubscribe token and store it. -/
def findOrCreateSubscriber (st : SubStore) (email : String) : SubscriberBean × SubStore :=
  match findByEmail st email with
  | some s => (s, st)
  | none =>
    let s : SubscriberBean :=
      { id := st.nextId, email := email,
        unsubscribeToken := generateUnsubscribeToken st.nextId }
    (s, { st with subscribers := st.subscribers ++ [s], nextId := st.nextId + 1 })

/-- The subscription-creation block of the subscribe route: store an
unverified row with `component_id = componentId || null`, the flag
defaults `notifyIncidents !== false`, `notifyMaintenance !== false`,
`notifyStatusChanges || false` and a fresh verification token, then
trigger the confirmation composer, whose failure is swallowed. -/
def createSubscription (st : SubStore) (req : SubscribeRequest)
    (subscriberId statusPageId : Nat) (componentId : JSVal) : SubStore :=
  let row : SubscriptionRow :=
    { id := st.nextId
      subscriberId := subscriberId
      statusPageId := statusPageId
      componentId := componentId
      notifyIncidents := jsNeqFalse req.notifyIncidents
      notifyMaintenance := jsNeqFalse req.notifyMaintenance
      notifyStatusChanges := jsOr req.notifyStatusChanges (JSVal.bool false)
      verified := false
      verificationToken := generateVerificationToken st.nextId }
  let st2 := { st with subscriptions := st.subscriptions ++ [row], nextId := st.nextId + 1 }
  match sendSubscriptionConfirmation st2.baseURL subscriberId with
  | Except.ok calls =>
    { st2 with queued := st2.queued ++ calls.map fun i => (i, "subscription_confirmation") }
  | Except.error _ => st2

/-- `POST /api/status-page/:slug/subscribe`: validate the email
(`!email || !email.includes("@")` gives 400), resolve the slug (404 when
unknown), find or create the subscriber by email, check
`Subscription.exists` on the triple with `componentId || null` (an
existing row answers `alreadySubscribed` without writing), otherwise
create the unverified subscription and answer `needsVerification`. -/
def subscribe (st : SubStore) (req : SubscribeRequest) : SubscribeResponse × SubStore :=
  if emailInvalid req then
    ({ statusCode := 400, ok := false, alreadySubscribed := false,
       needsVerification := false }, st)
  else
    match slugToID st req.slug with
    | none =>
      ({ statusCode := 404, ok := false, alreadySubscribed := false,
         needsVerification := false }, st)
    | some statusPageId =>
      let found := findOrCreateSubscriber st req.email
      let subscriber := found.1
      let st1 := found.2
      let componentId := jsOr req.componentId JSVal.null
      if subscriptionExists st1 subscriber.id statusPageId componentId then
        ({ statusCode := 200, ok := true, alreadySubscribed := true,
           needsVerification := false }, st1)
      else
        ({ statusCode := 200, ok := true, alreadySubscribed := false,
           needsVerification := true },
         createSubscription st1 req subscriber.id statusPageId componentId)

/-- The uniqueness invariant of §3 of the spec: at most one Subscription
row per (subscriberId, statusPageId, componentId) triple. -/
def uniqueTriples (st : SubStore) : Prop :=
  ∀ r1 ∈ st.subscriptions, ∀ r2 ∈ st.subscriptions,
    r1.subscriberId = r2.subscriberId → r1.statusPageId = r2.statusPageId →
      r1.componentId = r2.componentId → r1 = r2

/-! ## Sample environments and records for concrete evaluation -/

/-- A mail environment with a configured default SMTP transport whose
`Notification.send` raises. -/
def envSendError : MailEnv :=
  { store :=
      { findOneDefault := Except.ok (some { config := ConfigParse.ok "smtp" "Test SMTP" })
        findAllNotifications := Except.ok [] }
    sendResult := Except.error "SMTP connection failed" }

/-- A mail environment whose notification table is empty: no transport
is configured. -/
def envNoTransport : MailEnv :=
  { store := { findOneDefault := Except.ok none, findAllNotifications := Except.ok [] }
    sendResult := Except.ok () }

/-- A mail environment with a configured default SMTP transport whose
`Notification.send` succeeds. -/
def envSendOk : MailEnv :=
  { store :=
      { findOneDefault := Except.ok (some { config := ConfigParse.ok "smtp" "Test SMTP" })
        findAllNotifications := Except.ok [] }
    sendResult := Except.ok () }

/-- A mail environment whose `R.findOne` store lookup itself raises. -/
def envStoreError : MailEnv :=
  { store := { findOneDefault := Except.error "Database error"
               findAllNotifications := Except.ok [] }
    sendResult := Except.ok () }

/-- A pending queue row holding a well-formed message, already at 4
attempts. -/
def sampleItem : QueueItem :=
  { id := 1, subscriberId := 7, notificationType := "incident_created"
    subject := "Test"
    data := Payload.parsed (some { to_ := some "a@x.com", subject := some "Test",
                                   html := some "<p>Hi</p>" })
    status := QStatus.pending, attempts := 0, createdAt := 0, sentAt := none
    lastError := none }

/-- `sampleItem` at 4 failed attempts, still pending. -/
def sampleItemAt4 : QueueItem :=
  { sampleItem with attempts := 4, lastError := some "SMTP connection failed" }

/-- A pending queue row whose payload is not valid JSON, so
`JSON.parse(item.data)` throws. -/
def malformedItem : QueueItem :=
  { sampleItem with id := 2, data := Payload.malformed "Unexpected end of JSON input" }

/-- A pending queue row whose parsed payload lacks the `html` field of
its message. -/
def noHtmlItem : QueueItem :=
  { sampleItem with
    id := 3
    data := Payload.parsed (some { to_ := some "a@x.com", subject := some "Test",
                                   html := none }) }

/-- The four boolean combinations of (verified, notify-flag) on
subscriptions of status page 1: both true. -/
def subTT : SubscriptionBean :=
  { id := 1, subscriberId := 1, statusPageId := 1, notifyIncidents := true
    notifyMaintenance := true, notifyStatusChanges := true, verified := true }

/-- Notify-flags true, unverified. -/
def subTF : SubscriptionBean :=
  { id := 2, subscriberId := 2, statusPageId := 1, notifyIncidents := true
    notifyMaintenance := true, notifyStatusChanges := true, verified := false }

/-- Notify-flags false, verified. -/
def subFT : SubscriptionBean :=
  { id := 3, subscriberId := 3, statusPageId := 1, notifyIncidents := false
    notifyMaintenance := false, notifyStatusChanges := false, verified := true }

/-- Notify-flags false, unverified. -/
def subFF : SubscriptionBean :=
  { id := 4, subscriberId := 4, statusPageId := 1, notifyIncidents := false
    notifyMaintenance := false, notifyStatusChanges := false, verified := false }

/-- An incident-composer environment whose subscription list covers all
four (verified, notify-flag) combinations. -/
def envFourCombos : IncidentEnv :=
  { incident := some { id := 1, statusPageId := 1, style := "danger", title := "Outage" }
    statusPage := some { id := 1, slug := "demo" }
    baseURL := some "http://localhost:3000"
    subscriptions := [subTT, subTF, subFT, subFF] }

/-- A status-change environment over the same four combinations. -/
def envFourCombosSC : StatusChangeEnv :=
  { statusPage := some { id := 1, slug := "demo" }
    baseURL := some "http://localhost:3000"
    allSubscriptions := [subTT, subTF, subFT, subFF] }

/-- An incident-composer environment with entities present but the
primary base URL unset. -/
def envNoBaseURL : IncidentEnv :=
  { incident := some { id := 1, statusPageId := 1, style := "danger", title := "Outage" }
    statusPage := some { id := 1, slug := "demo" }
    baseURL := none
    subscriptions := [subTT] }

/-- A status-change environment with the page present but the primary
base URL unset. -/
def envNoBaseURLSC : StatusChangeEnv :=
  { statusPage := some { id := 1, slug := "demo" }
    baseURL := none
    allSubscriptions := [subTT] }

/-- An empty subscriber store knowing one status-page slug, with the
base URL configured. -/
def emptyStore : SubStore :=
  { subscribers := [], subscriptions := [], queued := [], nextId := 1
    slugTable := [("demo", 1)], baseURL := some "http://localhost:3000" }

/-- A store already holding an all-components subscription (componentId
null) of subscriber 1 to page 1. -/
def storeWithNullSub : SubStore :=
  { subscribers := [{ id := 1, email := "a@x.com", unsubscribeToken := "u1" }]
    subscriptions := [{ id := 2, subscriberId := 1, statusPageId := 1
                        componentId := JSVal.null, notifyIncidents := true
                        notifyMaintenance := true
                        notifyStatusChanges := JSVal.bool false, verified := false
                        verificationToken := "v2" }]
    queued := [], nextId := 3, slugTable := [("demo", 1)]
    baseURL := some "http://localhost:3000" }

/-- A subscribe request for `a@x.com` on slug `demo` with every optional
body field omitted. -/
def sampleRequest : SubscribeRequest :=
  { slug := "demo", email := "a@x.com", componentId := JSVal.undef
    notifyIncidents := JSVal.undef, notifyMaintenance := JSVal.undef
    notifyStatusChanges := JSVal.undef }

/-- `sampleRequest` with `componentId = 0` (a falsy number). -/
def requestComponentZero : SubscribeRequest :=
  { sampleRequest with componentId := JSVal.num 0 }

/-- A second subscribe request for the same (email, page, component)
triple as `sampleRequest` but differing everywhere else: opposite notify
flags and the raw component value `0` instead of omitted (both normalize
to the all-components scope `null`). -/
def sampleRequestVariant : SubscribeRequest :=
  { slug := "demo", email := "a@x.com", componentId := JSVal.num 0
    notifyIncidents := JSVal.bool false, notifyMaintenance := JSVal.bool false
    notifyStatusChanges := JSVal.bool true }

/-! # Theorems -/

/-- **C1** For every queued notification record processed by the drain
cycle whose delivery attempt raises an error, `attempts` is incremented
by exactly one and `last_error` is set to the raised message; if the
incremented value is strictly below 5 the status stays `pending`, and if
it reaches 5 the status becomes `failed`. -/
theorem processQueue_delivery_error_transition
    (env : MailEnv) (now : Nat) (item : QueueItem) (msg : Option Message) (e : String)
    (hpend : item.status = QStatus.pending)
    (hdata : item.data = Payload.parsed msg)
    (hval : validMessage msg = true)
    (hsend : sendEmail env = Except.error e) :
    (processItem env now item).attempts = item.attempts + 1 ∧
    (processItem env now item).lastError = some e ∧
    (item.attempts + 1 < 5 → (processItem env now item).status = QStatus.pending) ∧
    (item.attempts + 1 ≥ 5 → (processItem env now item).status = QStatus.failed) := by
  refine ⟨?_, ?_, ?_, ?_⟩ <;>
    simp only [processItem, hdata, hval, hsend, applyDeliveryError, if_true]
  · intro hlt
    rw [if_neg (by omega)]
    exact hpend
  · intro hge
    rw [if_pos hge]

/-- Witness for C1: draining `sampleItemAt4` (pending, `attempts = 4`)
against a transport whose send raises yields `attempts = 5` and status
`failed`. -/
theorem processQueue_delivery_error_transition_witness :
    sampleItemAt4.status = QStatus.pending ∧ sampleItemAt4.attempts = 4 ∧
    (processItem envSendError 9 sampleItemAt4).attempts = 5 ∧
    (processItem envSendError 9 sampleItemAt4).status = QStatus.failed ∧
    (processItem envSendError 9 sampleItemAt4).lastError = some "SMTP connection failed" := by
  have h := processQueue_delivery_error_transition envSendError 9 sampleItemAt4
    (some { to_ := some "a@x.com", subject := some "Test", html := some "<p>Hi</p>" })
    "SMTP connection failed" rfl rfl (by decide) rfl
  exact ⟨rfl, rfl, h.1, h.2.2.2 (by decide), h.2.1⟩

/-- **C2** `sendEmail` returns `false` (and does not raise) when no
transport is configured, and the drain cycle marks a record whose
`sendEmail` call returned `false` as `sent` with `sent_at` set, exactly
as it does for a `true` return — never pending, never failed. -/
theorem sendEmail_no_transport_treated_as_sent
    (env env2 : MailEnv) (now : Nat) (item : QueueItem) (msg : Option Message)
    (hdata : item.data = Payload.parsed msg)
    (hval : validMessage msg = true)
    (hnone : getDefaultNotification env.store = none)
    (htrue : sendEmail env2 = Except.ok true) :
    sendEmail env = Except.ok false ∧
    processItem env now item = { item with status := QStatus.sent, sentAt := some now } ∧
    processItem env2 now item = processItem env now item := by
  have hfalse : sendEmail env = Except.ok false := by
    simp only [sendEmail, hnone]
  refine ⟨hfalse, ?_, ?_⟩ <;>
    simp only [processItem, hdata, hval, hfalse, htrue, if_true]

/-- Witness for C2: against `envNoTransport` (empty notification table)
`sendEmail` returns `false` and `sampleItem` is marked `sent`, the same
record a successful send produces. -/
theorem sendEmail_no_transport_treated_as_sent_witness :
    sendEmail envNoTransport = Except.ok false ∧
    (processItem envNoTransport 5 sampleItem).status = QStatus.sent ∧
    (processItem envNoTransport 5 sampleItem).sentAt = some 5 ∧
    processItem envSendOk 5 sampleItem = processItem envNoTransport 5 sampleItem := by
  have h := sendEmail_no_transport_treated_as_sent envNoTransport envSendOk 5 sampleItem
    (some { to_ := some "a@x.com", subject := some "Test", html := some "<p>Hi</p>" })
    rfl (by decide) rfl rfl
  exact ⟨h.1, by rw [h.2.1], by rw [h.2.1], h.2.2⟩

/-- **C3 counterexample** A pending record whose payload is not valid
JSON does not contain a well-formed message, yet the drain cycle leaves
it `pending` with `attempts` incremented and `last_error` set to the
parse error — not `failed` with `"Invalid message format"` and
`attempts` unchanged, as the claim states. -/
theorem processQueue_invalid_payload_counterexample :
    validMessage none = false ∧
    malformedItem.status = QStatus.pending ∧ malformedItem.attempts = 0 ∧
    (processItem envSendOk 5 malformedItem).status = QStatus.pending ∧
    (processItem envSendOk 5 malformedItem).status ≠ QStatus.failed ∧
    (processItem envSendOk 5 malformedItem).attempts = 1 ∧
    (processItem envSendOk 5 malformedItem).lastError =
      some "Unexpected end of JSON input" := by
  decide

/-- **C3 amended** For every pending record drained whose payload parses
as JSON but lacks a message with truthy `to`, `subject` and `html`, the
drain cycle marks it `failed` immediately with
`last_error = "Invalid message format"`, leaving `attempts` (and every
other field) unchanged; no delivery is attempted — the outcome does not
depend on the mail environment. -/
theorem processQueue_invalid_message_failed
    (env env2 : MailEnv) (now now2 : Nat) (item : QueueItem) (msg : Option Message)
    (hdata : item.data = Payload.parsed msg)
    (hval : validMessage msg = false) :
    processItem env now item =
      { item with status := QStatus.failed, lastError := some "Invalid message format" } ∧
    processItem env2 now2 item = processItem env now item := by
  constructor <;> simp only [processItem, hdata, hval, Bool.false_eq_true, if_false]

/-- Witness for C3 amended: a record missing the `html` field is failed
immediately with the fixed error, attempts untouched, under any mail
environment. -/
theorem processQueue_invalid_message_failed_witness :
    (processItem envSendOk 5 noHtmlItem).status = QStatus.failed ∧
    (processItem envSendOk 5 noHtmlItem).lastError = some "Invalid message format" ∧
    (processItem envSendOk 5 noHtmlItem).attempts = noHtmlItem.attempts ∧
    processItem envSendError 8 noHtmlItem = processItem envSendOk 5 noHtmlItem := by
  have h := processQueue_invalid_message_failed envSendOk envSendError 5 8 noHtmlItem
    (some { to_ := some "a@x.com", subject := some "Test", html := none })
    rfl (by decide)
  exact ⟨by rw [h.1], by rw [h.1], by rw [h.1], h.2⟩

/-- **C4 counterexample** Calling `startQueueProcessor` while a drain
loop is already running does create a second concurrent recurring drain
loop: after a first start one interval is live, and a second start
leaves two live intervals. -/
theorem startQueueProcessor_double_start_counterexample :
    (startQueueProcessor initProcessorState).activeIntervals ≠ [] ∧
    ((startQueueProcessor (startQueueProcessor initProcessorState)).activeIntervals).length
      = 2 := by
  decide

/-- **C4 amended** `startQueueProcessor` is unguarded: every call
registers one additional recurring interval and overwrites the stored
handle with the new one (so an interval started earlier can no longer be
cancelled through the handle); `stopQueueProcessor` cancels exactly the
recurring trigger named by the stored handle and clears the handle. -/
theorem startQueueProcessor_unguarded_stop_clears
    (s : ProcessorState) (h : Nat) (hh : s.queueInterval = some h) :
    (startQueueProcessor s).activeIntervals = s.activeIntervals ++ [s.nextTimerId] ∧
    (startQueueProcessor s).queueInterval = some s.nextTimerId ∧
    (stopQueueProcessor s).queueInterval = none ∧
    (stopQueueProcessor s).activeIntervals = s.activeIntervals.filter fun i => i ≠ h := by
  refine ⟨rfl, rfl, ?_, ?_⟩ <;> simp only [stopQueueProcessor, hh]

/-- Witness for C4 amended: starting once from the initial state and
stopping again registers interval 0, stores its handle, and the stop
cancels it and clears the handle. -/
theorem startQueueProcessor_unguarded_stop_clears_witness :
    (startQueueProcessor initProcessorState).activeIntervals = [] ++ [0] ∧
    (startQueueProcessor initProcessorState).queueInterval = some 0 ∧
    (stopQueueProcessor (startQueueProcessor initProcessorState)).queueInterval = none ∧
    (stopQueueProcessor (startQueueProcessor initProcessorState)).activeIntervals =
      ([] ++ [0]).filter fun i => i ≠ 0 := by
  have h := startQueueProcessor_unguarded_stop_clears
    (startQueueProcessor initProcessorState) 0 rfl
  exact ⟨rfl, rfl, h.2.2.1, h.2.2.2⟩

/-- The subscriber loop of the incident composers keeps exactly the
rows passing the two `continue` guards. -/
theorem incidentLoop_eq_filter (l : List SubscriptionBean) :
    incidentLoop l = l.filter fun s => s.notifyIncidents && s.verified := by
  induction l with
  | nil => rfl
  | cons a rest ih =>
    cases hn : a.notifyIncidents <;> cases hv : a.verified <;>
      simp [incidentLoop, hn, hv, List.filter_cons, ih]

/-- **C5** A subscription receives a queued incident notification iff it
is in the fetched set with `verified` and `notify_incidents` both true,
and a subscription receives a queued status-change notification iff it
is a row of the page with `verified` and `notify_status_changes` both
true — over all four boolean combinations. -/
theorem notification_eligibility_iff
    (env : IncidentEnv) (out : List SubscriptionBean) (s : SubscriptionBean)
    (envSC : StatusChangeEnv) (pageId : Nat) (outSC : List SubscriptionBean)
    (sSC : SubscriptionBean)
    (hok : sendIncidentNotification env = Except.ok out)
    (hurl : optTruthy env.baseURL = true)
    (hokSC : sendStatusChangeNotification envSC pageId = Except.ok outSC)
    (hurlSC : optTruthy envSC.baseURL = true) :
    (s ∈ out ↔ s ∈ env.subscriptions ∧ s.verified = true ∧ s.notifyIncidents = true) ∧
    (sSC ∈ outSC ↔ sSC ∈ envSC.allSubscriptions ∧ sSC.statusPageId = pageId ∧
      sSC.verified = true ∧ sSC.notifyStatusChanges = true) := by
  constructor
  · have hout : out = incidentLoop env.subscriptions := by
      unfold sendIncidentNotification incidentComposer at hok
      split at hok
      · exact absurd hok (by simp)
      · split at hok
        · exact absurd hok (by simp)
        · split at hok
          · exact absurd hok (by simp)
          · split at hok
            · exact absurd hok (by simp)
            · split at hok
              · rename_i hfalse
                rw [hurl] at hfalse
                exact absurd hfalse (by simp)
              · exact (Except.ok.inj hok).symm
    rw [hout, incidentLoop_eq_filter, List.mem_filter]
    simp [Bool.and_eq_true]
    tauto
  · have hout : outSC = envSC.allSubscriptions.filter (statusChangeEligible pageId) := by
      unfold sendStatusChangeNotification at hokSC
      split at hokSC
      · exact absurd hokSC (by simp)
      · split at hokSC
        · exact absurd hokSC (by simp)
        · split at hokSC
          · rename_i hfalse
            rw [hurlSC] at hfalse
            exact absurd hfalse (by simp)
          · exact (Except.ok.inj hokSC).symm
    rw [hout, List.mem_filter]
    simp [statusChangeEligible, Bool.and_eq_true, decide_eq_true_eq]
    tauto

/-- Witness for C5: over the four combination rows of `envFourCombos`,
both composers queue exactly for the (verified, notify-flag) = (true,
true) row `subTT`. -/
theorem notification_eligibility_iff_witness :
    (subTT ∈ [subTT] ↔ subTT ∈ envFourCombos.subscriptions ∧ subTT.verified = true ∧
      subTT.notifyIncidents = true) ∧
    (subTT ∈ [subTT] ↔ subTT ∈ envFourCombosSC.allSubscriptions ∧
      subTT.statusPageId = 1 ∧ subTT.verified = true ∧
      subTT.notifyStatusChanges = true) :=
  notification_eligibility_iff envFourCombos [subTT] subTT envFourCombosSC 1 [subTT] subTT
    rfl (by decide) rfl (by decide)

/-- **C7** When the primary base URL is unset but the event entities
load, every event composer returns without raising and queues nothing,
while the subscription-confirmation composer raises an error that
propagates. -/
theorem baseURL_unset_skip_vs_confirmation
    (env : IncidentEnv) (envSC : StatusChangeEnv) (pageId subscriberId : Nat)
    (inc : Incident) (sp spSC : StatusPageBean)
    (hinc : env.incident = some inc) (hid : inc.id ≠ 0)
    (hsp : env.statusPage = some sp) (hslug : sp.slug ≠ "")
    (hurl : optTruthy env.baseURL = false)
    (hspSC : envSC.statusPage = some spSC) (hslugSC : spSC.slug ≠ "")
    (hurlSC : optTruthy envSC.baseURL = false) :
    sendIncidentNotification env = Except.ok [] ∧
    sendIncidentUpdateNotification env = Except.ok [] ∧
    sendIncidentResolvedNotification env = Except.ok [] ∧
    sendStatusChangeNotification envSC pageId = Except.ok [] ∧
    sendSubscriptionConfirmation env.baseURL subscriberId =
      Except.error "Primary Base URL is not set. Please configure it in Settings > General." := by
  have hskel : incidentComposer env = Except.ok [] := by
    simp only [incidentComposer, hinc, hsp]
    rw [if_neg hid, if_neg hslug, if_pos hurl]
  refine ⟨hskel, hskel, hskel, ?_, ?_⟩
  · simp only [sendStatusChangeNotification, hspSC]
    rw [if_neg hslugSC, if_pos hurlSC]
  · unfold sendSubscriptionConfirmation
    rw [if_pos hurl]

/-- Witness for C7: with the incident and page present but no base URL,
all four event composers queue nothing and return cleanly, and the
confirmation composer throws. -/
theorem baseURL_unset_skip_vs_confirmation_witness :
    sendIncidentNotification envNoBaseURL = Except.ok [] ∧
    sendIncidentUpdateNotification envNoBaseURL = Except.ok [] ∧
    sendIncidentResolvedNotification envNoBaseURL = Except.ok [] ∧
    sendStatusChangeNotification envNoBaseURLSC 1 = Except.ok [] ∧
    sendSubscriptionConfirmation envNoBaseURL.baseURL 1 =
      Except.error "Primary Base URL is not set. Please configure it in Settings > General." :=
  baseURL_unset_skip_vs_confirmation envNoBaseURL envNoBaseURLSC 1 1
    { id := 1, statusPageId := 1, style := "danger", title := "Outage" }
    { id := 1, slug := "demo" } { id := 1, slug := "demo" }
    rfl (by decide) rfl (by decide) rfl rfl (by decide) rfl

/-- **C8** `getDefaultNotification` never raises: a failing store lookup
(or a thrown body error of any kind) yields `null`, exactly like the
no-transport case, and whenever selection yields `null`, `sendEmail`
returns `false` instead of propagating the store error. -/
theorem getDefaultNotification_total_selection_failure_is_false
    (env : MailEnv) (st : NotifStore) (e : String) :
    (st.findOneDefault = Except.error e → getDefaultNotification st = none) ∧
    (getDefaultNotificationBody st = Except.error e → getDefaultNotification st = none) ∧
    (getDefaultNotification env.store = none → sendEmail env = Except.ok false) := by
  refine ⟨?_, ?_, ?_⟩
  · intro h
    simp only [getDefaultNotification, getDefaultNotificationBody, h]
  · intro h
    simp only [getDefaultNotification, h]
  · intro h
    simp only [sendEmail, h]

/-- Witness for C8: a store whose `findOne` raises yields selection
`null` and `sendEmail` returning `false`. -/
theorem getDefaultNotification_total_selection_failure_is_false_witness :
    getDefaultNotification envStoreError.store = none ∧
    sendEmail envStoreError = Except.ok false := by
  have h := getDefaultNotification_total_selection_failure_is_false
    envStoreError envStoreError.store "Database error"
  have h1 := h.1 rfl
  exact ⟨h1, h.2.2 h1⟩


/-- `findOrCreateSubscriber` touches only the subscriber list and the
id counter. -/
theorem findOrCreateSubscriber_components (st : SubStore) (e : String) :
    (findOrCreateSubscriber st e).2.subscriptions = st.subscriptions ∧
    (findOrCreateSubscriber st e).2.queued = st.queued ∧
    (findOrCreateSubscriber st e).2.slugTable = st.slugTable ∧
    (findOrCreateSubscriber st e).2.baseURL = st.baseURL := by
  cases h : findByEmail st e with
  | none => simp [findOrCreateSubscriber, h]
  | some s => simp [findOrCreateSubscriber, h]

/-- `findByEmail` reads only the subscriber list. -/
theorem findByEmail_congr (st1 st2 : SubStore) (e : String)
    (h : st1.subscribers = st2.subscribers) :
    findByEmail st1 e = findByEmail st2 e := by
  unfold findByEmail
  rw [h]

/-- When the email already resolves, find-or-create returns that
subscriber and leaves the store untouched. -/
theorem findOrCreateSubscriber_of_found (st : SubStore) (e : String) (s : SubscriberBean)
    (h : findByEmail st e = some s) :
    findOrCreateSubscriber st e = (s, st) := by
  unfold findOrCreateSubscriber
  rw [h]

/-- After find-or-create, looking the same email up again returns
exactly the subscriber that was used. -/
theorem findByEmail_after_findOrCreate (st : SubStore) (e : String) :
    findByEmail (findOrCreateSubscriber st e).2 e = some (findOrCreateSubscriber st e).1 := by
  cases h : findByEmail st e with
  | some s => simp [findOrCreateSubscriber, h]
  | none =>
    have h' : st.subscribers.find? (fun s => s.email = e) = none := h
    simp [findOrCreateSubscriber, h, findByEmail, List.find?_append, h']

/-- Membership form of the spec-modelled duplicate check. -/
theorem subscriptionExists_iff (st : SubStore) (sid pid : Nat) (cid : JSVal) :
    subscriptionExists st sid pid cid = true ↔
      ∃ r ∈ st.subscriptions, r.subscriberId = sid ∧ r.statusPageId = pid ∧
        r.componentId = cid := by
  simp [subscriptionExists, List.any_eq_true, Bool.and_eq_true, decide_eq_true_eq,
    and_assoc]

/-- A store whose subscriptions end with a row always answers the
duplicate check positively for that row's triple. -/
theorem subscriptionExists_snoc (st st' : SubStore) (row : SubscriptionRow)
    (h : st'.subscriptions = st.subscriptions ++ [row]) :
    subscriptionExists st' row.subscriberId row.statusPageId row.componentId = true := by
  unfold subscriptionExists
  rw [h, List.any_append]
  simp

/-- `createSubscription` appends exactly one row, with the stored flag
values, and leaves subscribers and the slug table unchanged. -/
theorem createSubscription_components (st : SubStore) (req : SubscribeRequest)
    (sid pid : Nat) (comp : JSVal) :
    (createSubscription st req sid pid comp).subscribers = st.subscribers ∧
    (createSubscription st req sid pid comp).slugTable = st.slugTable ∧
    (createSubscription st req sid pid comp).subscriptions =
      st.subscriptions ++
        [{ id := st.nextId, subscriberId := sid, statusPageId := pid,
           componentId := comp,
           notifyIncidents := jsNeqFalse req.notifyIncidents,
           notifyMaintenance := jsNeqFalse req.notifyMaintenance,
           notifyStatusChanges := jsOr req.notifyStatusChanges (JSVal.bool false),
           verified := false,
           verificationToken := generateVerificationToken st.nextId }] := by
  unfold createSubscription
  cases h : sendSubscriptionConfirmation st.baseURL sid with
  | ok calls => simp [h]
  | error e => simp [h]

/-- Appending a row whose triple is not yet present preserves the
uniqueness invariant. -/
theorem uniqueTriples_snoc (st st' : SubStore) (row : SubscriptionRow)
    (h : st'.subscriptions = st.subscriptions ++ [row])
    (huniq : uniqueTriples st)
    (hnew : subscriptionExists st row.subscriberId row.statusPageId row.componentId
      = false) :
    uniqueTriples st' := by
  intro r1 h1 r2 h2 e1 e2 e3
  rw [h] at h1 h2
  rcases List.mem_append.mp h1 with h1 | h1
  · rcases List.mem_append.mp h2 with h2 | h2
    · exact huniq r1 h1 r2 h2 e1 e2 e3
    · exfalso
      have h2' : r2 = row := by simpa using h2
      have hc := (subscriptionExists_iff st row.subscriberId row.statusPageId
          row.componentId).mpr
        ⟨r1, h1, by rw [e1, h2'], by rw [e2, h2'], by rw [e3, h2']⟩
      rw [hnew] at hc
      exact Bool.noConfusion hc
  · have h1' : r1 = row := by simpa using h1
    rcases List.mem_append.mp h2 with h2 | h2
    · exfalso
      have hc := (subscriptionExists_iff st row.subscriberId row.statusPageId
          row.componentId).mpr
        ⟨r2, h2, by rw [← e1, h1'], by rw [← e2, h1'], by rw [← e3, h1']⟩
      rw [hnew] at hc
      exact Bool.noConfusion hc
    · have h2' : r2 = row := by simpa using h2
      rw [h1', h2']

/-- **C6** For every pair of subscribe calls agreeing on the (email,
page, componentId) triple — the notify flags and the raw component value
are free to differ, component agreement being up to the route's own
`componentId || null` normalization, which raw equality implies — the
second call creates no subscription row, no subscriber row and no
confirmation enqueue: the store is unchanged and the response is
`ok = true` with `alreadySubscribed = true`; the uniqueness invariant on
(subscriberId, statusPageId, componentId) is preserved. -/
theorem subscribe_idempotent
    (st : SubStore) (req1 req2 : SubscribeRequest)
    (hemail : req1.email = req2.email)
    (hslug0 : req1.slug = req2.slug)
    (hcomp : jsOr req1.componentId JSVal.null = jsOr req2.componentId JSVal.null)
    (hok : (subscribe st req1).1.ok = true)
    (huniq : uniqueTriples st) :
    (subscribe (subscribe st req1).2 req2).1.ok = true ∧
    (subscribe (subscribe st req1).2 req2).1.alreadySubscribed = true ∧
    (subscribe (subscribe st req1).2 req2).2 = (subscribe st req1).2 ∧
    uniqueTriples (subscribe st req1).2 := by
  by_cases hv : emailInvalid req1 = true
  · simp [subscribe, hv] at hok
  · replace hv : emailInvalid req1 = false := by simpa using hv
    have hv2 : emailInvalid req2 = false := by
      unfold emailInvalid at hv ⊢
      rw [← hemail]
      exact hv
    cases hslug : slugToID st req1.slug with
    | none => simp [subscribe, hv, hslug] at hok
    | some pid =>
      obtain ⟨sub, st1, hfc⟩ :
          ∃ sub st1, findOrCreateSubscriber st req1.email = (sub, st1) := ⟨_, _, rfl⟩
      have hcm := findOrCreateSubscriber_components st req1.email
      rw [hfc] at hcm
      have hfind2 := findByEmail_after_findOrCreate st req1.email
      rw [hfc] at hfind2
      have hfind2v : findByEmail st1 req2.email = some sub := by
        rw [← hemail]
        exact hfind2
      have hslug1 : slugToID st1 req2.slug = some pid := by
        unfold slugToID
        rw [hcm.2.2.1, ← hslug0]
        exact hslug
      have hfc2 : findOrCreateSubscriber st1 req2.email = (sub, st1) :=
        findOrCreateSubscriber_of_found st1 req2.email sub hfind2v
      have huniq1 : uniqueTriples st1 := by
        unfold uniqueTriples
        rw [hcm.1]
        exact huniq
      by_cases hex : subscriptionExists st1 sub.id pid
          (jsOr req1.componentId JSVal.null) = true
      · have hexv : subscriptionExists st1 sub.id pid
            (jsOr req2.componentId JSVal.null) = true := by
          rw [← hcomp]
          exact hex
        have h1 : subscribe st req1 =
            ({ statusCode := 200, ok := true, alreadySubscribed := true,
               needsVerification := false }, st1) := by
          simp [subscribe, hv, hslug, hfc, hex]
        have h2 : subscribe st1 req2 =
            ({ statusCode := 200, ok := true, alreadySubscribed := true,
               needsVerification := false }, st1) := by
          simp [subscribe, hv2, hslug1, hfc2, hexv]
        rw [h1]
        refine ⟨?_, ?_, ?_, huniq1⟩
        · show (subscribe st1 req2).1.ok = true
          rw [h2]
        · show (subscribe st1 req2).1.alreadySubscribed = true
          rw [h2]
        · show (subscribe st1 req2).2 = st1
          rw [h2]
      · replace hex : subscriptionExists st1 sub.id pid
            (jsOr req1.componentId JSVal.null) = false := by simpa using hex
        have h1 : subscribe st req1 =
            ({ statusCode := 200, ok := true, alreadySubscribed := false,
               needsVerification := true },
             createSubscription st1 req1 sub.id pid (jsOr req1.componentId JSVal.null)) := by
          simp [subscribe, hv, hslug, hfc, hex]
        have hcs := createSubscription_components st1 req1 sub.id pid
          (jsOr req1.componentId JSVal.null)
        have hslug2 : slugToID (createSubscription st1 req1 sub.id pid
            (jsOr req1.componentId JSVal.null)) req2.slug = some pid := by
          unfold slugToID
          rw [hcs.2.1]
          exact hslug1
        have hfind3 : findByEmail (createSubscription st1 req1 sub.id pid
            (jsOr req1.componentId JSVal.null)) req2.email = some sub := by
          rw [findByEmail_congr _ st1 req2.email hcs.1]
          exact hfind2v
      -- the triple of the appended row answers the duplicate check,
      -- also for the second request's normalized component value
        have hex2 : subscriptionExists (createSubscription st1 req1 sub.id pid
            (jsOr req1.componentId JSVal.null)) sub.id pid
            (jsOr req1.componentId JSVal.null) = true :=
          subscriptionExists_snoc st1 _ _ hcs.2.2
        have hex2v : subscriptionExists (createSubscription st1 req1 sub.id pid
            (jsOr req1.componentId JSVal.null)) sub.id pid
            (jsOr req2.componentId JSVal.null) = true := by
          rw [← hcomp]
          exact hex2
        have hfc3 : findOrCreateSubscriber (createSubscription st1 req1 sub.id pid
            (jsOr req1.componentId JSVal.null)) req2.email =
            (sub, createSubscription st1 req1 sub.id pid
              (jsOr req1.componentId JSVal.null)) :=
          findOrCreateSubscriber_of_found _ req2.email sub hfind3
        have h2 : subscribe (createSubscription st1 req1 sub.id pid
            (jsOr req1.componentId JSVal.null)) req2 =
            ({ statusCode := 200, ok := true, alreadySubscribed := true,
               needsVerification := false },
             createSubscription st1 req1 sub.id pid (jsOr req1.componentId JSVal.null)) := by
          simp [subscribe, hv2, hslug2, hfc3, hex2v]
        have huniq2 : uniqueTriples (createSubscription st1 req1 sub.id pid
            (jsOr req1.componentId JSVal.null)) :=
          uniqueTriples_snoc st1 _ _ hcs.2.2 huniq1 hex
        rw [h1]
        refine ⟨?_, ?_, ?_, huniq2⟩
        · show (subscribe (createSubscription st1 req1 sub.id pid
            (jsOr req1.componentId JSVal.null)) req2).1.ok = true
          rw [h2]
        · show (subscribe (createSubscription st1 req1 sub.id pid
            (jsOr req1.componentId JSVal.null)) req2).1.alreadySubscribed = true
          rw [h2]
        · show (subscribe (createSubscription st1 req1 sub.id pid
            (jsOr req1.componentId JSVal.null)) req2).2 =
            createSubscription st1 req1 sub.id pid (jsOr req1.componentId JSVal.null)
          rw [h2]

/-- Witness for C6: subscribing `a@x.com` to `demo` from the empty
store, then subscribing again with the same triple but opposite notify
flags and raw component value `0` instead of omitted — the second call
answers already-subscribed and leaves the store unchanged. -/
theorem subscribe_idempotent_witness :
    (subscribe (subscribe emptyStore sampleRequest).2 sampleRequestVariant).1.ok = true ∧
    (subscribe (subscribe emptyStore sampleRequest).2
      sampleRequestVariant).1.alreadySubscribed = true ∧
    (subscribe (subscribe emptyStore sampleRequest).2 sampleRequestVariant).2 =
      (subscribe emptyStore sampleRequest).2 ∧
    uniqueTriples (subscribe emptyStore sampleRequest).2 :=
  subscribe_idempotent emptyStore sampleRequest sampleRequestVariant rfl rfl (by decide)
    (by decide) (by simp [uniqueTriples, emptyStore])

/-- **C9** When the notify flags are omitted from the body, the created
subscription stores `notify_incidents = true`,
`notify_maintenance = true` and `notify_status_changes = false`: the
first two default via `!== false` (any value but the literal `false`
gives `true`), the third via `|| false` (only a truthy value stays
truthy) — asymmetric defaults. -/
theorem subscribe_flag_defaults
    (st : SubStore) (req : SubscribeRequest)
    (h1 : req.notifyIncidents = JSVal.undef)
    (h2 : req.notifyMaintenance = JSVal.undef)
    (h3 : req.notifyStatusChanges = JSVal.undef)
    (hneeds : (subscribe st req).1.needsVerification = true) :
    (∃ row : SubscriptionRow,
      (subscribe st req).2.subscriptions = st.subscriptions ++ [row] ∧
      row.notifyIncidents = true ∧
      row.notifyMaintenance = true ∧
      row.notifyStatusChanges = JSVal.bool false) ∧
    (∀ v : JSVal, v ≠ JSVal.bool false → jsNeqFalse v = true) ∧
    (∀ v : JSVal, truthy (jsOr v (JSVal.bool false)) = truthy v) := by
  refine ⟨?_, ?_, ?_⟩
  · by_cases hv : emailInvalid req = true
    · simp [subscribe, hv] at hneeds
    · replace hv : emailInvalid req = false := by simpa using hv
      cases hslug : slugToID st req.slug with
      | none => simp [subscribe, hv, hslug] at hneeds
      | some pid =>
        obtain ⟨sub, st1, hfc⟩ :
            ∃ sub st1, findOrCreateSubscriber st req.email = (sub, st1) := ⟨_, _, rfl⟩
        have hcm := findOrCreateSubscriber_components st req.email
        rw [hfc] at hcm
        by_cases hex : subscriptionExists st1 sub.id pid
            (jsOr req.componentId JSVal.null) = true
        · simp [subscribe, hv, hslug, hfc, hex] at hneeds
        · replace hex : subscriptionExists st1 sub.id pid
              (jsOr req.componentId JSVal.null) = false := by simpa using hex
          have hcs := createSubscription_components st1 req sub.id pid
            (jsOr req.componentId JSVal.null)
          have hres : (subscribe st req).2 =
              createSubscription st1 req sub.id pid (jsOr req.componentId JSVal.null) := by
            simp [subscribe, hv, hslug, hfc, hex]
          refine ⟨{ id := st1.nextId, subscriberId := sub.id, statusPageId := pid,
                    componentId := jsOr req.componentId JSVal.null,
                    notifyIncidents := jsNeqFalse req.notifyIncidents,
                    notifyMaintenance := jsNeqFalse req.notifyMaintenance,
                    notifyStatusChanges := jsOr req.notifyStatusChanges (JSVal.bool false),
                    verified := false,
                    verificationToken := generateVerificationToken st1.nextId },
                  ?_, ?_, ?_, ?_⟩
          · rw [hres, hcs.2.2]
            rw [show st1.subscriptions = st.subscriptions from hcm.1]
          · rw [show jsNeqFalse req.notifyIncidents = jsNeqFalse JSVal.undef from by rw [h1]]
            rfl
          · rw [show jsNeqFalse req.notifyMaintenance = jsNeqFalse JSVal.undef from by
              rw [h2]]
            rfl
          · rw [show jsOr req.notifyStatusChanges (JSVal.bool false) =
                jsOr JSVal.undef (JSVal.bool false) from by rw [h3]]
            rfl
  · intro v hv
    simpa [jsNeqFalse] using hv
  · intro v
    unfold jsOr
    by_cases h : truthy v = true
    · rw [if_pos h]
    · rw [if_neg h]
      simp only [Bool.not_eq_true] at h
      rw [h]
      rfl

/-- Witness for C9: subscribing from the empty store with every flag
field omitted creates exactly one row with the asymmetric defaults. -/
theorem subscribe_flag_defaults_witness :
    (∃ row : SubscriptionRow,
      (subscribe emptyStore sampleRequest).2.subscriptions =
        emptyStore.subscriptions ++ [row] ∧
      row.notifyIncidents = true ∧
      row.notifyMaintenance = true ∧
      row.notifyStatusChanges = JSVal.bool false) ∧
    (∀ v : JSVal, v ≠ JSVal.bool false → jsNeqFalse v = true) ∧
    (∀ v : JSVal, truthy (jsOr v (JSVal.bool false)) = truthy v) :=
  subscribe_flag_defaults emptyStore sampleRequest rfl rfl rfl (by decide)

/-- The subscribe route reads `componentId` only through
`componentId || null`, so two requests differing only in component
values with the same normalization behave identically. -/
theorem subscribe_congr_componentId (st : SubStore) (r1 r2 : SubscribeRequest)
    (hslug : r1.slug = r2.slug) (hemail : r1.email = r2.email)
    (hni : r1.notifyIncidents = r2.notifyIncidents)
    (hnm : r1.notifyMaintenance = r2.notifyMaintenance)
    (hns : r1.notifyStatusChanges = r2.notifyStatusChanges)
    (hcomp : jsOr r1.componentId JSVal.null = jsOr r2.componentId JSVal.null) :
    subscribe st r1 = subscribe st r2 := by
  cases r1
  cases r2
  simp only at hslug hemail hni hnm hns hcomp
  subst hslug
  subst hemail
  subst hni
  subst hnm
  subst hns
  simp only [subscribe, createSubscription, emailInvalid]
  rw [hcomp]

/-- **C10** A falsy `componentId` (absent, null, 0 or empty string)
normalizes to `null` — the all-components scope — for both the duplicate
check and the stored row: the whole route behaves exactly as if
`componentId` were `null`. -/
theorem subscribe_componentId_falsy
    (st : SubStore) (req : SubscribeRequest)
    (hfalsy : truthy req.componentId = false) :
    jsOr req.componentId JSVal.null = JSVal.null ∧
    subscribe st req = subscribe st { req with componentId := JSVal.null } := by
  have h : jsOr req.componentId JSVal.null = JSVal.null := by
    unfold jsOr
    rw [hfalsy]
    rfl
  refine ⟨h, subscribe_congr_componentId st req { req with componentId := JSVal.null }
    rfl rfl rfl rfl rfl ?_⟩
  rw [h]
  rfl

/-- Witness for C10: subscribing with `componentId = 0` collides with an
existing all-components (null) subscription of the same subscriber and
page — the route answers already-subscribed. -/
theorem subscribe_componentId_falsy_witness :
    truthy (JSVal.num 0) = false ∧
    jsOr requestComponentZero.componentId JSVal.null = JSVal.null ∧
    subscribe storeWithNullSub requestComponentZero =
      subscribe storeWithNullSub
        { requestComponentZero with componentId := JSVal.null } ∧
    (subscribe storeWithNullSub requestComponentZero).1.alreadySubscribed = true := by
  have h := subscribe_componentId_falsy storeWithNullSub requestComponentZero (by decide)
  exact ⟨by decide, h.1, h.2, by decide⟩

end UptimeKuma
